import Mathlib

/-!
Verification development for the deep-research pipeline orchestrator
(`backend/` sources: `core/security.py`, `core/scraper.py`, `core/llm_client.py`,
`services/context_state.py`, `services/research.py`).

The Python sources are shallowly embedded as executable Lean definitions.
External I/O (LLM calls, web searches, page fetches) is passed in as explicit
oracle data, so every embedded operation is a pure function of its inputs.
-/

/-- Decimal digit value of an ASCII digit character (`'0'` ↦ 0, …). -/
def digitVal (c : Char) : Nat := c.toNat - 48

/-- ASCII digit character for a value below ten. -/
def digitChar (d : Nat) : Char := Char.ofNat (48 + d)

/-- Most-significant-first decimal digits of `n`, with `fuel` bounding the
recursion depth (`fuel = n` always suffices).  Empty for `n = 0`. -/
def natToStrAux : Nat → Nat → List Char
  | 0, _ => []
  | fuel + 1, n => if n = 0 then [] else natToStrAux fuel (n / 10) ++ [digitChar (n % 10)]

/-- Decimal rendering of a natural number, as Python's `str` produces it. -/
def natToStr (n : Nat) : String :=
  if n = 0 then "0" else ⟨natToStrAux n n⟩

/-- Value of a most-significant-first digit-character list. -/
def charsToNat (cs : List Char) : Nat :=
  cs.foldl (fun a c => a * 10 + digitVal c) 0

/-- Parse a canonical decimal numeral; `none` on the empty string or any
non-digit character (Python's `int` raises there). -/
def strToNat? (s : String) : Option Nat :=
  if s.data ≠ [] ∧ s.data.all Char.isDigit then some (charsToNat s.data) else none

/-- Lower-case a string (ASCII case folding, as the Python sources use). -/
def lowerStr (s : String) : String := ⟨s.data.map Char.toLower⟩

/-- Does `pat` occur as a contiguous sublist of `l`?  Models Python's
substring operators `in` / `str.find(...) >= 0`. -/
def listContainsSub (pat : List Char) : List Char → Bool
  | [] => decide (pat = [])
  | c :: rest => pat.isPrefixOf (c :: rest) || listContainsSub pat rest

/-- `pat` occurs as a substring of `s` (Python `pat in s`). -/
def containsSub (s pat : String) : Bool := listContainsSub pat.data s.data

/-- Replace every non-overlapping occurrence of `p0 :: ps` by `rep`, scanning
left to right and continuing after each replacement, exactly as Python's
`str.replace`.  The pattern is passed with its head split off so each step
consumes at least one character; `fuel` bounds the recursion (the input
length always suffices). -/
def replaceAux (p0 : Char) (ps rep : List Char) : Nat → List Char → List Char
  | 0, l => l
  | _ + 1, [] => []
  | fuel + 1, c :: rest =>
    if c = p0 ∧ ps.isPrefixOf rest then rep ++ replaceAux p0 ps rep fuel (rest.drop ps.length)
    else c :: replaceAux p0 ps rep fuel rest

/-- Python `s.replace(pat, rep)`; the empty pattern is never used by the code. -/
def pyReplace (s pat rep : String) : String :=
  match pat.data with
  | [] => s
  | p0 :: ps => ⟨replaceAux p0 ps rep.data s.data.length s.data⟩

/-- List-based suffix test (Python `str.endswith`). -/
def endsWithL (s suf : String) : Bool := suf.data.isSuffixOf s.data

/-- Python `str.strip()` restricted to the whitespace characters that can
survive the sanitizer's control-character filter (space, tab, newline, CR). -/
def pyStrip (s : String) : String :=
  ⟨(s.data.dropWhile Char.isWhitespace).reverse.dropWhile Char.isWhitespace |>.reverse⟩

namespace Security

/-! Embedding of `backend/core/security.py`. -/

/-- `MAX_URL_LENGTH` from `security.py`. -/
def MAX_URL_LENGTH : Nat := 2048

/-- `MAX_USER_QUERY_LENGTH` from `security.py`. -/
def MAX_USER_QUERY_LENGTH : Nat := 10000

/-- `BLOCKED_PORTS` from `security.py`. -/
def BLOCKED_PORTS : List Nat := [22, 23, 25, 3306, 5432, 6379, 27017, 11211]

/-- `PRIVATE_HOSTNAMES` from `security.py`. -/
def PRIVATE_HOSTNAMES : List String :=
  ["localhost", "localhost.localdomain", "127.0.0.1", "0.0.0.0", "::1", "[::1]"]

/-- Characters permitted after the first position of a URL scheme
(CPython `urllib.parse.scheme_chars`). -/
def schemeChar (c : Char) : Bool := c.isAlpha || c.isDigit || c = '+' || c = '-' || c = '.'

/-- Split a leading `scheme:` off a URL, as CPython `urlsplit` does: the text
before the first colon is a scheme when it is nonempty, starts with a letter
and consists of scheme characters; the scheme is lower-cased. -/
def splitScheme (l : List Char) : String × List Char :=
  let pre := l.takeWhile (· ≠ ':')
  if pre.length < l.length ∧ pre ≠ [] ∧ (pre.headD ' ').isAlpha ∧ pre.all schemeChar then
    (⟨pre.map Char.toLower⟩, l.drop (pre.length + 1))
  else ("", l)

/-- The network-location part: present only after a literal `//`, extending to
the next `/`, `?` or `#` (CPython `urlsplit`). -/
def netlocOf (rest : List Char) : List Char :=
  match rest with
  | '/' :: '/' :: r => r.takeWhile (fun c => c ≠ '/' ∧ c ≠ '?' ∧ c ≠ '#')
  | _ => []

/-- The part of the netloc after the last `@` (CPython `netloc.rpartition('@')`). -/
def afterLastAt (netloc : List Char) : List Char :=
  (netloc.reverse.takeWhile (· ≠ '@')).reverse

/-- Result of URL parsing: scheme, lower-cased hostname (empty = missing) and
validated port.  A parse error models the `ValueError`s CPython raises for
mismatched IPv6 brackets or an invalid port. -/
structure Parsed where
  scheme : String
  hostname : String
  port : Option Nat
deriving DecidableEq, Repr

/-- Hostname / port extraction from a netloc, following CPython's
`_hostinfo`: bracketed hosts keep the text inside `[...]`, otherwise the host
is everything before the first colon; the port text must be a decimal number
in `0..65535`, else a `ValueError` (here: `Except.error`) results.  Mismatched
brackets are an `Invalid IPv6 URL` error. -/
def hostPort (netloc : List Char) : Except String (String × Option Nat) := do
  if (netloc.contains '[' ∧ ¬ netloc.contains ']') ∨
     (netloc.contains ']' ∧ ¬ netloc.contains '[') then
    throw "Invalid IPv6 URL"
  let hostinfo := afterLastAt netloc
  let (hostCs, portCs) :=
    if hostinfo.contains '[' then
      let bracketed := (hostinfo.dropWhile (· ≠ '[')).drop 1
      let host := bracketed.takeWhile (· ≠ ']')
      let rest := (bracketed.dropWhile (· ≠ ']')).drop 1
      (host, (rest.dropWhile (· ≠ ':')).drop 1)
    else
      (hostinfo.takeWhile (· ≠ ':'), (hostinfo.dropWhile (· ≠ ':')).drop 1)
  if portCs = [] then
    return (⟨hostCs.map Char.toLower⟩, none)
  else if portCs.all Char.isDigit then
    let v := charsToNat portCs
    if v ≤ 65535 then return (⟨hostCs.map Char.toLower⟩, some v)
    else throw "Port out of range 0-65535"
  else throw "Port could not be cast to integer value"

/-- The fragment of `urllib.parse.urlparse` that `validate_url` consumes:
scheme, hostname and port, with parse failures surfaced as errors. -/
def urlparseE (url : String) : Except String Parsed := do
  let (scheme, rest) := splitScheme url.data
  let netloc := netlocOf rest
  let (host, port) ← hostPort netloc
  return ⟨scheme, host, port⟩

/-- Parse one dotted-quad octet as `ipaddress` does: one to three digits, no
leading zero, value at most 255. -/
def parseOctet (cs : List Char) : Option Nat :=
  if cs ≠ [] ∧ cs.all Char.isDigit ∧ cs.length ≤ 3 ∧
      ¬(cs.length > 1 ∧ cs.headD ' ' = '0') then
    let v := charsToNat cs
    if v ≤ 255 then some v else none
  else none

/-- Split a character list at every `'.'` (keeping empty groups). -/
def splitDots (l : List Char) : List (List Char) :=
  match l with
  | [] => [[]]
  | c :: rest =>
    match splitDots rest with
    | [] => [[]]
    | g :: gs => if c = '.' then [] :: g :: gs else (c :: g) :: gs

/-- Parse an IPv4 dotted-quad address (`ipaddress.ip_address` for IPv4).
IPv6 literals are not classified here: no claim input reaches an IPv6
address-classification branch (the `::1` literals are caught earlier by the
hostname block-list). -/
def parseIPv4 (host : String) : Option (Nat × Nat × Nat × Nat) :=
  match (splitDots host.data).map parseOctet with
  | [some a, some b, some c, some d] => some (a, b, c, d)
  | _ => none

/-- `ipaddress` IPv4 `is_private` (the standard private-constants list). -/
def ipv4Private : Nat × Nat × Nat × Nat → Bool
  | (a, b, c, d) =>
    a = 0 || a = 10 || a = 127 || (a = 169 && b = 254) ||
    (a = 172 && 16 ≤ b && b ≤ 31) ||
    (a = 192 && b = 0 && c = 0 && (d ≤ 7 || d = 170 || d = 171)) ||
    (a = 192 && b = 0 && c = 2) || (a = 192 && b = 168) ||
    (a = 198 && (b = 18 || b = 19)) || (a = 198 && b = 51 && c = 100) ||
    (a = 203 && b = 0 && c = 113) || a ≥ 240

/-- `ipaddress` IPv4 `is_loopback` (127.0.0.0/8). -/
def ipv4Loopback : Nat × Nat × Nat × Nat → Bool
  | (a, _, _, _) => a = 127

/-- `ipaddress` IPv4 `is_link_local` (169.254.0.0/16, incl. cloud metadata). -/
def ipv4LinkLocal : Nat × Nat × Nat × Nat → Bool
  | (a, b, _, _) => a = 169 && b = 254

/-- `ipaddress` IPv4 `is_reserved` (240.0.0.0/4). -/
def ipv4Reserved : Nat × Nat × Nat × Nat → Bool
  | (a, _, _, _) => a ≥ 240

/-- `ipaddress` IPv4 `is_multicast` (224.0.0.0/4). -/
def ipv4Multicast : Nat × Nat × Nat × Nat → Bool
  | (a, _, _, _) => 224 ≤ a && a ≤ 239

/-- The IP-literal checks of `validate_url`: when the host parses as an IPv4
address, private / loopback / link-local / reserved / multicast addresses are
rejected unless `allow_private`; a non-IP host passes. -/
def ipCheck (host : String) (allowPrivate : Bool) : Bool :=
  match parseIPv4 host with
  | none => true
  | some ip =>
    if allowPrivate then true
    else ¬(ipv4Private ip || ipv4Loopback ip || ipv4LinkLocal ip ||
           ipv4Reserved ip || ipv4Multicast ip)

/-- `security.validate_url`: SSRF validation of a URL.  Returns `false` on an
empty URL, over-long URL, parse error (the code's `except` clause), missing or
non-http(s) scheme, missing host, block-listed host, internal-TLD suffix,
blocked port, or private-range IP literal. -/
def validate_url (url : String) (allowPrivate : Bool := false) : Bool :=
  if url.isEmpty then false
  else if url.length > MAX_URL_LENGTH then false
  else
    match urlparseE url with
    | .error _ => false
    | .ok p =>
      if p.scheme.isEmpty then false
      else if ¬(p.scheme = "http" ∨ p.scheme = "https") then false
      else if p.hostname.isEmpty then false
      else if p.hostname ∈ PRIVATE_HOSTNAMES ∧ ¬allowPrivate then false
      else if (endsWithL p.hostname ".local" ∨ endsWithL p.hostname ".internal" ∨
               endsWithL p.hostname ".lan" ∨ endsWithL p.hostname ".localhost") ∧
              ¬allowPrivate then false
      else
        match p.port with
        | some pt => if pt ≠ 0 ∧ pt ∈ BLOCKED_PORTS then false
                     else ipCheck p.hostname allowPrivate
        | none => ipCheck p.hostname allowPrivate

/-- `security.validate_urls`: keep only the URLs that validate, in order. -/
def validate_urls (urls : List String) (allowPrivate : Bool := false) : List String :=
  urls.filter (fun u => validate_url u allowPrivate)

/-- The eight structural markers the sanitizer escapes. -/
def promptMarkers : List String :=
  ["=== SOURCES ===", "=== END SOURCES ===", "=== SELECTED ===", "=== REJECTED ===",
   "=== THINKING ===", "=== SEARCHES ===", "=== END DOSSIER ===", "=== END REPORT ==="]

/-- The sanitizer's control-character filter
(`[\x00-\x08\x0b\x0c\x0e-\x1f\x7f-\x9f]` removed; newline and tab survive). -/
def isStrippedCtrl (c : Char) : Bool :=
  (c.toNat ≤ 8) || c.toNat = 11 || c.toNat = 12 ||
  (14 ≤ c.toNat && c.toNat ≤ 31) || (127 ≤ c.toNat && c.toNat ≤ 159)

/-- `security.sanitize_user_input`: truncate at `maxLength` (appending a
truncation marker), drop control characters, optionally wrap each structural
marker in brackets, and strip surrounding whitespace. -/
def sanitize_user_input (text : String) (maxLength : Nat := MAX_USER_QUERY_LENGTH)
    (removePromptMarkers : Bool := true) : String :=
  if text.isEmpty then ""
  else
    let t := if text.length > maxLength
             then ⟨text.data.take maxLength⟩ ++ "\n[...TRUNCATED...]"
             else text
    let t : String := ⟨t.data.filter (fun c => ¬ isStrippedCtrl c)⟩
    let t := if removePromptMarkers then
               promptMarkers.foldl (fun s m => pyReplace s m ("[" ++ m ++ "]")) t
             else t
    pyStrip t

end Security

namespace Scraper

/-! Embedding of `backend/core/scraper.py` (its URL validator and the
pre-fetch filtering of `scrape_urls_batch`). -/

/-- `MAX_URLS_PER_BATCH` from `scraper.py`. -/
def MAX_URLS_PER_BATCH : Nat := 100

/-- The `172.(1[6-9]|2[0-9]|3[0-1]).` pattern of the scraper's private-IP
regex list, applied to the text after the scheme. -/
def match172Range (cs : List Char) : Bool :=
  match cs with
  | '1' :: '7' :: '2' :: '.' :: a :: b :: '.' :: _ =>
    (a = '1' ∧ ('6' ≤ b ∧ b ≤ '9')) ∨ (a = '2' ∧ b.isDigit) ∨ (a = '3' ∧ (b = '0' ∨ b = '1'))
  | _ => false

/-- `scraper.validate_url`: the scraper module's own URL check.  The URL must
start with `http://` or `https://` (case-sensitive, as Python `startswith`),
and the host part must not match one of seven private-address prefix regexes
(matched case-insensitively).  Note this check is far weaker than
`Security.validate_url`: no port, link-local, reserved, multicast or
internal-TLD blocking. -/
def validate_url (url : String) : Bool :=
  if url.isEmpty then false
  else if ¬("http://".data.isPrefixOf url.data ∨ "https://".data.isPrefixOf url.data) then false
  else
    let hostPart : List Char :=
      if "http://".data.isPrefixOf url.data then (lowerStr url).data.drop 7
      else (lowerStr url).data.drop 8
    ¬("localhost".data.isPrefixOf hostPart ∨
      "127.".data.isPrefixOf hostPart ∨
      "10.".data.isPrefixOf hostPart ∨
      match172Range hostPart ∨
      "192.168.".data.isPrefixOf hostPart ∨
      "[::1]".data.isPrefixOf hostPart ∨
      "0.0.0.0".data.isPrefixOf hostPart)

/-- `scraper.validate_urls`: keep the URLs passing the scraper's check. -/
def validate_urls (urls : List String) : List String :=
  urls.filter validate_url

/-- The URLs `scrape_urls_batch` will actually attempt to fetch: the input is
capped at `MAX_URLS_PER_BATCH` and then filtered through the scraper-local
validator; every surviving URL enters the fetch loop. -/
def batchAttemptedUrls (urls : List String) : List String :=
  validate_urls (urls.take MAX_URLS_PER_BATCH)

end Scraper

/-- A search result `(title, url, snippet)` as produced by the search adapter. -/
structure Hit where
  title : String
  url : String
  snippet : String
deriving DecidableEq, Repr

/-- A stored dossier record, as `ContextState.add_dossier` appends it:
`{point, dossier, sources, point_number}`. -/
structure DossierRec where
  point : String
  dossier : String
  sources : List String
  point_number : Nat
deriving DecidableEq, Repr

/-- `services/context_state.ContextState`: the per-session research
accumulator.  Python dicts with insertion order are modelled as ordered
association lists (`source_registry`, `search_results`). -/
structure ContextState where
  session_id : String := ""
  session_title : String := ""
  original_query : String := ""
  current_step : Nat := 0
  queries : List String := []
  urls : List String := []
  search_results : List (String × List Hit) := []
  clarification_questions : List String := []
  clarification_answers : List String := []
  plan_points : List String := []
  plan_version : Nat := 0
  dossiers : List DossierRec := []
  key_learnings : List String := []
  source_registry : List (Nat × String) := []
  source_counter : Nat := 1
  language : String := "en"
  academic_mode : Bool := false
deriving DecidableEq, Repr

namespace ContextState

/-- Python `d[k] = v` on an insertion-ordered dict: update in place when the
key exists, else append. -/
def dictSet (d : List (Nat × String)) (k : Nat) (v : String) : List (Nat × String) :=
  if d.any (fun p => p.1 = k) then d.map (fun p => if p.1 = k then (k, v) else p)
  else d ++ [(k, v)]

/-- `next((num for num, u in registry.items() if u == url), None)`: the first
key mapping to `url`, in insertion order. -/
def findNum (reg : List (Nat × String)) (url : String) : Option Nat :=
  (reg.find? (fun p => p.2 = url)).map (·.1)

/-- One iteration of the `add_sources` loop over a URL (state:
registry × counter × accumulated mapping).  The Python guard is
`if existing:`—`None` and `0` are both falsy, so an existing key `0` is
treated as absent. -/
def addOneSource (st : List (Nat × String) × Nat × List (Nat × String)) (url : String) :
    List (Nat × String) × Nat × List (Nat × String) :=
  match findNum st.1 url with
  | some n =>
    if n ≠ 0 then (st.1, st.2.1, dictSet st.2.2 n url)
    else (dictSet st.1 st.2.1 url, st.2.1 + 1, dictSet st.2.2 st.2.1 url)
  | none => (dictSet st.1 st.2.1 url, st.2.1 + 1, dictSet st.2.2 st.2.1 url)

/-- `ContextState.add_sources`: register each URL in order, reusing the first
registry key already mapping to it (when that key is truthy) and otherwise
assigning `source_counter` and incrementing it.  Returns the mapping for
exactly the URLs provided, and the updated state. -/
def add_sources (ctx : ContextState) (urls : List String) :
    List (Nat × String) × ContextState :=
  let r := urls.foldl addOneSource (ctx.source_registry, ctx.source_counter, [])
  (r.2.2, { ctx with source_registry := r.1, source_counter := r.2.1 })

/-- `ContextState.update_key_learnings` in its string form: append the
stripped string when it is nonempty and does not strip to nothing. -/
def update_key_learnings (ctx : ContextState) (learnings : String) : ContextState :=
  if learnings ≠ "" ∧ pyStrip learnings ≠ "" then
    { ctx with key_learnings := ctx.key_learnings ++ [pyStrip learnings] }
  else ctx

/-- `ContextState.add_dossier`: append the dossier record with
`point_number = len(dossiers) + 1`, register its sources, and append the key
learnings (when truthy). -/
def add_dossier (ctx : ContextState) (point dossier_text : String)
    (sources : List String) (learnings : Option String) : ContextState :=
  let ctx : ContextState := { ctx with
    dossiers := ctx.dossiers ++
      [{ point := point, dossier := dossier_text, sources := sources,
         point_number := ctx.dossiers.length + 1 }] }
  let ctx := (ctx.add_sources sources).2
  match learnings with
  | some l => if l ≠ "" then ctx.update_key_learnings l else ctx
  | none => ctx

/-- `ContextState.get_all_learnings`. -/
def get_all_learnings (ctx : ContextState) : List String := ctx.key_learnings

/-- `ContextState.get_dossiers`. -/
def get_dossiers (ctx : ContextState) : List DossierRec := ctx.dossiers

/-- `ContextState.get_all_sources`. -/
def get_all_sources (ctx : ContextState) : List (Nat × String) := ctx.source_registry

/-- The dictionary produced by `ContextState.to_dict`: the same fields, with
the `source_registry` keys rendered as strings. -/
structure StateDict where
  session_id : String
  session_title : String
  original_query : String
  current_step : Nat
  queries : List String
  urls : List String
  search_results : List (String × List Hit)
  clarification_questions : List String
  clarification_answers : List String
  plan_points : List String
  plan_version : Nat
  dossiers : List DossierRec
  key_learnings : List String
  source_registry : List (String × String)
  source_counter : Nat
  language : String
  academic_mode : Bool
deriving DecidableEq, Repr

/-- `ContextState.to_dict`: serialize, turning each integer registry key `k`
into the string `str(k)`. -/
def to_dict (ctx : ContextState) : StateDict where
  session_id := ctx.session_id
  session_title := ctx.session_title
  original_query := ctx.original_query
  current_step := ctx.current_step
  queries := ctx.queries
  urls := ctx.urls
  search_results := ctx.search_results
  clarification_questions := ctx.clarification_questions
  clarification_answers := ctx.clarification_answers
  plan_points := ctx.plan_points
  plan_version := ctx.plan_version
  dossiers := ctx.dossiers
  key_learnings := ctx.key_learnings
  source_registry := ctx.source_registry.map (fun p => (natToStr p.1, p.2))
  source_counter := ctx.source_counter
  language := ctx.language
  academic_mode := ctx.academic_mode

/-- The registry-key restoration of `from_dict`
(`{int(k): v for k, v in raw.items()}`): parse each key left to right,
failing on the first non-numeral (where Python raises). -/
def parseRegistry : List (String × String) → Option (List (Nat × String))
  | [] => some []
  | p :: rest => do
    let n ← strToNat? p.1
    let r ← parseRegistry rest
    return (n, p.2) :: r

/-- `ContextState.from_dict`: restore a state, converting each registry key
back with `int(k)`; a non-numeric key makes Python raise, modelled as `none`. -/
def from_dict (d : StateDict) : Option ContextState := do
  let reg ← parseRegistry d.source_registry
  return {
    session_id := d.session_id
    session_title := d.session_title
    original_query := d.original_query
    current_step := d.current_step
    queries := d.queries
    urls := d.urls
    search_results := d.search_results
    clarification_questions := d.clarification_questions
    clarification_answers := d.clarification_answers
    plan_points := d.plan_points
    plan_version := d.plan_version
    dossiers := d.dossiers
    key_learnings := d.key_learnings
    source_registry := reg
    source_counter := d.source_counter
    language := d.language
    academic_mode := d.academic_mode }

end ContextState

namespace Llm

/-! Embedding of `backend/core/llm_client.py` (`_build_request_body`). -/

/-- A chat message `{role, content}`. -/
structure Msg where
  role : String
  content : String
deriving DecidableEq, Repr

/-- The request body produced by `_build_request_body`.  The JSON float `0.3`
is modelled as the rational `3/10`; an absent field is `none`. -/
structure Body where
  model : String
  messages : List Msg
  max_tokens : Nat
  temperature : Option ℚ
  system : Option String
deriving DecidableEq, Repr

/-- The anthropic branch's message scan: each system-role message overwrites
`system_prompt` and is dropped from the filtered list; all other messages are
kept in order. -/
def anthropicScan (messages : List Msg) : Option String × List Msg :=
  messages.foldl
    (fun acc m =>
      if m.role = "system" then (some m.content, acc.2) else (acc.1, acc.2 ++ [m]))
    (none, [])

/-- `_build_request_body`: for anthropic, the scanned system prompt becomes a
top-level `system` field when truthy and only non-system messages are sent;
every other provider receives the full message list with `temperature = 0.3`. -/
def _build_request_body (messages : List Msg) (model : String) (max_tokens : Nat)
    (provider : String) : Body :=
  if provider = "anthropic" then
    let (sysPrompt, filtered) := anthropicScan messages
    { model := model, messages := filtered, max_tokens := max_tokens,
      temperature := none,
      system := match sysPrompt with
                | some c => if c ≠ "" then some c else none
                | none => none }
  else
    { model := model, messages := messages, max_tokens := max_tokens,
      temperature := some (3 / 10), system := none }

end Llm

namespace Dossier

/-! The anchor handling of `prompts/dossier.parse_dossier_response`. -/

/-- Index of the first occurrence of `pat` in `l` (Python `str.find`, with
`none` for `-1`). -/
def findSubIdx? (pat : List Char) : List Char → Option Nat
  | [] => if pat = [] then some 0 else none
  | c :: rest =>
    if pat.isPrefixOf (c :: rest) then some 0
    else (findSubIdx? pat rest).map (· + 1)

/-- The sources-block gate of `parse_dossier_response`: after capping the
response at 500 kB, the block is processed exactly when
`find('=== SOURCES ===') >= 0` and `find('=== END SOURCES ===')` is larger. -/
def sourcesAnchorsMatch (response : String) : Bool :=
  let r := response.data.take 500000
  match findSubIdx? "=== SOURCES ===".data r, findSubIdx? "=== END SOURCES ===".data r with
  | some s, some e => s < e
  | _, _ => false

end Dossier

namespace Research

/-! Embedding of `backend/services/research.py`.  The external world (LLM
responses, search hits, scraped pages) and the outputs of the prompt-module
text parsers applied to those responses are supplied as explicit oracle data;
everything the service itself does with them is embedded. -/

/-- Python truthiness of an `Optional[str]`: `None` and `""` are falsy. -/
def truthyS : Option String → Bool
  | none => false
  | some s => s ≠ ""

/-- Python `d[k] = v` for a string-keyed insertion-ordered dict. -/
def dictSetS (d : List (String × List Hit)) (k : String) (v : List Hit) :
    List (String × List Hit) :=
  if d.any (fun p => p.1 = k) then d.map (fun p => if p.1 = k then (k, v) else p)
  else d ++ [(k, v)]

/-- `execute_searches`: one dict entry per query, in order (an entry is
present even when the engine returned no hits, so the dict is empty only for
an empty query list). -/
def execute_searches (queries : List String) (searchHits : String → List Hit) :
    List (String × List Hit) :=
  queries.foldl (fun d q => dictSetS d q (searchHits q)) []

/-- The URL-picking step shared by `search_and_pick` and the deep-research
loop: the structured parser's output when the response is truthy, falling
back to the regex scrape when the parser found nothing. -/
def pickUrlsFrom (pickResp : Option String) (parsedUrls fallbackUrls : List String) :
    List String :=
  match pickResp with
  | none => []
  | some r =>
    if r = "" then []
    else if parsedUrls ≠ [] then parsedUrls
    else fallbackUrls

/-- `scrape_urls_batch` as observed by the service: the input is capped and
filtered by the scraper-local validator, and the oracle returns the extracted
text per attempted URL (`none` for a failed fetch). -/
def batchScrape (urls : List String) (fetched : String → Option String) :
    List (String × String) :=
  (Scraper.batchAttemptedUrls urls).filterMap (fun u => (fetched u).map (fun c => (u, c)))

/-- One `re.sub(r'\[N\](?!\d)', '[G]', text)` pass over a character list:
at each position, an exact `[N]` token not followed by a digit is replaced
and scanning resumes after it; otherwise the scan advances one character.
`patTail` is the token text after the opening bracket; `fuel` bounds the
recursion (the input length suffices, as each step consumes a character). -/
def subCiteAux (patTail rep : List Char) : Nat → List Char → List Char
  | 0, l => l
  | _ + 1, [] => []
  | fuel + 1, c :: rest =>
    if c = '[' ∧ patTail.isPrefixOf rest then
      let after := rest.drop patTail.length
      if (after.headD ' ').isDigit then c :: subCiteAux patTail rep fuel rest
      else rep ++ subCiteAux patTail rep fuel after
    else c :: subCiteAux patTail rep fuel rest

/-- Replace every exact citation token `[localNum]` (with the negative
lookahead `(?!\d)`) by `[globalNum]`. -/
def subCite (text : String) (localNum globalNum : Nat) : String :=
  let patTail := (natToStr localNum).data ++ [']']
  let rep := '[' :: (natToStr globalNum).data ++ [']']
  ⟨subCiteAux patTail rep text.data.length text.data⟩

/-- The citation-remapping loop of `deep_research` (lines 625–643): for each
fetched URL in order, look up its global number in `new_sources`; when that
number is truthy and differs from the local index, rewrite `[local]` to
`[global]` in the dossier text and (when truthy) the key learnings. -/
def remapLoop : List String → List (Nat × String) → Nat → String → String →
    String × String
  | [], _, _, t, k => (t, k)
  | url :: rest, new_sources, localNum, t, k =>
    let globalNum := (new_sources.find? (fun p => p.2 = url)).map (·.1)
    match globalNum with
    | some g =>
      if g ≠ 0 ∧ g ≠ localNum then
        let t' := subCite t localNum g
        let k' := if k ≠ "" then subCite k localNum g else k
        remapLoop rest new_sources (localNum + 1) t' k'
      else remapLoop rest new_sources (localNum + 1) t k
    | none => remapLoop rest new_sources (localNum + 1) t k

/-- The global-renumbering step of `deep_research` (lines 622–643): register
the fetched URLs, then run the remapping loop against the returned mapping. -/
def renumberStep (ctx : ContextState) (dossier_urls : List String)
    (dossier_text key_learnings : String) : ContextState × String × String :=
  let r := ctx.add_sources dossier_urls
  (r.2, remapLoop dossier_urls r.1 1 dossier_text key_learnings)

/-- A research event, projected to the payload fields this development
reasons about (`point_complete` events that carry no `skipped` key are
recorded with `skipped = false`). -/
inductive REvent where
  | status
  | sources (urls : List String)
  | point_complete (point_number total_points : Nat) (skipped : Bool)
  | synthesis_start (dossier_count total_sources : Nat)
  | done (total_points total_sources : Nat)
deriving DecidableEq, Repr

/-- The external-world outcomes for one plan point of the deep-research
loop: the think/pick/dossier LLM responses, the parser outputs on them, the
search hits per query and the fetch result per URL. -/
structure PointEnv where
  thinkResp : Option String
  thinkingBlock : String
  searchQueries : List String
  searchHits : String → List Hit
  pickResp : Option String
  pickParsedUrls : List String
  pickFallbackUrls : List String
  fetched : String → Option String
  dossierResp : Option String
  dossierText : String
  dossierLearnings : String
  dossierCitations : List (Nat × String)

/-- One iteration of the deep-research loop (lines 501–661): the events it
yields and the context it leaves.  Skip paths for a failed think call or
empty queries yield `point_complete` with `skipped = true`; the other skip
paths are bare `continue`s. -/
def runPoint (ctx : ContextState) (pointIdx totalPoints : Nat) (point : String)
    (e : PointEnv) : List REvent × ContextState :=
  if ¬ truthyS e.thinkResp then
    ([.status, .point_complete pointIdx totalPoints true], ctx)
  else if e.searchQueries = [] then
    ([.status, .point_complete pointIdx totalPoints true], ctx)
  else
    let search_results := execute_searches e.searchQueries e.searchHits
    if search_results = [] then
      ([.status, .status], ctx)
    else
      let urls := pickUrlsFrom e.pickResp e.pickParsedUrls e.pickFallbackUrls
      if urls = [] then
        ([.status, .status, .status], ctx)
      else
        let scraped := batchScrape urls e.fetched
        if scraped = [] then
          ([.status, .status, .status, .sources urls, .status], ctx)
        else if ¬ truthyS e.dossierResp then
          ([.status, .status, .status, .sources urls, .status, .status], ctx)
        else
          let dossier_urls := scraped.map (·.1)
          let r := renumberStep ctx dossier_urls e.dossierText e.dossierLearnings
          let ctx'' := r.1.add_dossier point r.2.1 dossier_urls (some r.2.2)
          ([.status, .status, .status, .sources urls, .status, .status,
            .point_complete pointIdx totalPoints false], ctx'')

/-- The deep-research loop over the plan points (1-based indices, as in
`enumerate(plan_points, 1)`), threading the context. -/
def runPoints (totalPoints : Nat) :
    ContextState → Nat → List (String × PointEnv) → List REvent × ContextState
  | ctx, _, [] => ([], ctx)
  | ctx, idx, pe :: rest =>
    let r := runPoint ctx idx totalPoints pe.1 pe.2
    let r2 := runPoints totalPoints r.2 (idx + 1) rest
    (r.1 ++ r2.1, r2.2)

/-- `deep_research`: sets `current_step = 5`, emits the initial status event,
runs the per-point loop, emits `synthesis_start` when any dossiers were
accumulated, and always ends with exactly one `done` event whose
`total_points` is `len(completed_dossiers)` and whose `total_sources` is the
registry size. -/
def deep_research (ctx : ContextState) (plan_points : List String)
    (envs : List PointEnv) : List REvent × ContextState :=
  let ctx0 : ContextState := { ctx with current_step := 5 }
  let totalPoints := plan_points.length
  let r := runPoints totalPoints ctx0 1 (plan_points.zip envs)
  let completed := r.2.get_dossiers
  let tailEvs : List REvent :=
    if completed ≠ [] then
      [.synthesis_start completed.length r.2.get_all_sources.length]
    else []
  (.status :: r.1 ++ tailEvs ++
    [.done completed.length r.2.get_all_sources.length], r.2)

/-- External outcomes for the `get_overview` stage. -/
structure OverviewEnv where
  llmResp : Option String
  parsedTitle : String
  parsedQueries : List String

/-- `get_overview`: stores the query and `current_step = 1` before the LLM
call; on a falsy response returns an error, leaving those writes in place;
on success also stores the parsed title and queries. -/
def get_overview (ctx : ContextState) (user_query : String) (e : OverviewEnv) :
    ContextState × Bool :=
  let ctx1 : ContextState := { ctx with original_query := user_query, current_step := 1 }
  if ¬ truthyS e.llmResp then (ctx1, false)
  else ({ ctx1 with session_title := e.parsedTitle, queries := e.parsedQueries }, true)

/-- External outcomes for the `search_and_pick` stage. -/
structure PickEnv where
  searchHits : String → List Hit
  pickResp : Option String
  pickParsedUrls : List String
  pickFallbackUrls : List String

/-- `search_and_pick`: sets `current_step = 2` before searching; an empty
search-result dict is the stage's error; otherwise search results and picked
URLs are stored. -/
def search_and_pick (ctx : ContextState) (queries : List String) (e : PickEnv) :
    ContextState × Bool :=
  let ctx1 : ContextState := { ctx with current_step := 2 }
  let results := execute_searches queries e.searchHits
  if results = [] then (ctx1, false)
  else
    let ctx2 : ContextState := { ctx1 with search_results := results }
    let urls := pickUrlsFrom e.pickResp e.pickParsedUrls e.pickFallbackUrls
    ({ ctx2 with urls := urls }, true)

/-- `clarify`: sets `current_step = 3`, scrapes at most 15 of the URLs, and
errors when nothing could be scraped; it commits nothing else to state. -/
def clarify (ctx : ContextState) (urls : List String)
    (fetched : String → Option String) : ContextState × Bool :=
  let ctx1 : ContextState := { ctx with current_step := 3 }
  let urls_to_scrape := urls.take (min urls.length 15)
  let scraped := batchScrape urls_to_scrape fetched
  if scraped = [] then (ctx1, false) else (ctx1, true)

/-- `create_plan`: sets `current_step = 4`, stores the clarification pair
when truthy, and replaces the plan with the parsed points (bumping
`plan_version`); the stage has no error return at all — a failed LLM call
just commits an empty plan. -/
def create_plan (ctx : ContextState) (answers : List String)
    (questions : Option (List String)) (planResp : Option String)
    (parsedPoints : List String) : ContextState × Bool :=
  let ctx1 : ContextState := { ctx with current_step := 4 }
  let ctx2 : ContextState :=
    match questions with
    | some qs => if qs ≠ [] then { ctx1 with clarification_questions := qs } else ctx1
    | none => ctx1
  let ctx3 : ContextState :=
    if answers ≠ [] then { ctx2 with clarification_answers := answers } else ctx2
  let points := if truthyS planResp then parsedPoints else []
  ({ ctx3 with plan_points := points, plan_version := ctx3.plan_version + 1 }, true)

/-- The chain of conditions under which one deep-research iteration reaches
the commit branch (dossier appended, `point_complete` without `skipped`);
each conjunct mirrors one guard of the loop, in order. -/
def pointCommits (e : PointEnv) : Bool :=
  truthyS e.thinkResp &&
  !(e.searchQueries = []) &&
  !(execute_searches e.searchQueries e.searchHits = []) &&
  !(pickUrlsFrom e.pickResp e.pickParsedUrls e.pickFallbackUrls = []) &&
  !(batchScrape (pickUrlsFrom e.pickResp e.pickParsedUrls e.pickFallbackUrls) e.fetched = []) &&
  truthyS e.dossierResp

end Research

namespace ContextState

/-- The mapping `add_sources` returns, described against a fixed registry:
each URL in order contributes the entry whose key is the first registry key
mapping to it.  Used to state that both calls of a repeated registration
return the same mapping. -/
def buildMap (urls : List String) (reg : List (Nat × String))
    (acc : List (Nat × String)) : List (Nat × String) :=
  urls.foldl
    (fun a u =>
      match findNum reg u with
      | some n => dictSet a n u
      | none => a)
    acc

end ContextState

namespace Llm

/-- Content of the last system-role message of a list, if any: the value the
anthropic scan's `system_prompt` ends up holding. -/
def lastSystemContent : List Msg → Option String
  | [] => none
  | m :: rest =>
    match lastSystemContent rest with
    | some c => some c
    | none => if m.role = "system" then some m.content else none

end Llm

namespace Ex

/-! Concrete inputs used by the claim theorems and witnesses. -/

/-- A benign search hit. -/
def hitA : Hit := { title := "t", url := "http://a.example/", snippet := "s" }

/-- A point environment in which every step of the loop succeeds. -/
def envBase : Research.PointEnv where
  thinkResp := some "T"
  thinkingBlock := "th"
  searchQueries := ["q"]
  searchHits := fun _ => [hitA]
  pickResp := some "url 1: http://a.example/"
  pickParsedUrls := ["http://a.example/"]
  pickFallbackUrls := []
  fetched := fun _ => some "page content"
  dossierResp := some "D"
  dossierText := "text [1]"
  dossierLearnings := "learn"
  dossierCitations := []

/-- The think call fails (falsy LLM response). -/
def envThinkFail : Research.PointEnv := { envBase with thinkResp := none }

/-- The URL pick yields nothing, structured parse and regex fallback alike. -/
def envNoUrls : Research.PointEnv :=
  { envBase with pickParsedUrls := [], pickFallbackUrls := [] }

/-- Every fetch fails, so the scrape dictionary is empty. -/
def envNoScrape : Research.PointEnv := { envBase with fetched := fun _ => none }

/-- The dossier LLM call fails. -/
def envNoDossier : Research.PointEnv := { envBase with dossierResp := none }

/-- A pre-existing dossier record, for runs on a resumed context. -/
def d0 : DossierRec := { point := "p0", dossier := "d0", sources := [], point_number := 1 }

end Ex

/-- C5: `Security.validate_url` rejects each of the ten listed URLs
(file scheme, localhost, loopback, cloud-metadata, private ranges, IPv6
loopback, blocked port, javascript scheme, internal TLD), and any URL whose
parse raises is rejected rather than propagating the exception. -/
theorem claim_C5_url_validator_blocklist :
    Security.validate_url "file:///etc/passwd" = false ∧
    Security.validate_url "http://localhost/x" = false ∧
    Security.validate_url "http://127.0.0.1/" = false ∧
    Security.validate_url "http://169.254.169.254/latest/meta-data/" = false ∧
    Security.validate_url "http://10.0.0.1/" = false ∧
    Security.validate_url "http://192.168.1.1/" = false ∧
    Security.validate_url "http://[::1]/" = false ∧
    Security.validate_url "https://example.com:22/" = false ∧
    Security.validate_url "javascript:alert(1)" = false ∧
    Security.validate_url "http://x.local/" = false ∧
    ∀ (url msg : String), Security.urlparseE url = Except.error msg →
      Security.validate_url url = false := by
  refine ⟨by decide, by decide, by decide, by decide, by decide, by decide, by decide,
    by decide, by decide, by decide, ?_⟩
  intro url msg h
  simp [Security.validate_url, h]

/-- Witness for C5: a URL with a non-numeric port makes the parse raise, and
the validator returns false on it. -/
theorem claim_C5_url_validator_blocklist_witness :
    Security.validate_url "http://example.com:abc/" = false :=
  claim_C5_url_validator_blocklist.2.2.2.2.2.2.2.2.2.2 "http://example.com:abc/"
    "Port could not be cast to integer value" rfl

/-- C6 (code bug): the batch fetcher filters through the scraper-local
validator only, which accepts the cloud-metadata address, a blocked port and
an internal TLD — so `scrape_urls_batch` attempts the very fetches that the
section-4.1 validator (`Security.validate_url`) rejects. -/
theorem claim_C6_batch_fetch_ssrf_gap :
    Scraper.batchAttemptedUrls ["http://169.254.169.254/latest/meta-data/"]
      = ["http://169.254.169.254/latest/meta-data/"] ∧
    Scraper.validate_url "https://example.com:22/" = true ∧
    Scraper.validate_url "http://x.local/" = true ∧
    Security.validate_url "http://169.254.169.254/latest/meta-data/" = false ∧
    Security.validate_url "https://example.com:22/" = false ∧
    Security.validate_url "http://x.local/" = false := by decide

/-- C9 (code bug): the sanitizer turns `=== SOURCES ===` into
`[=== SOURCES ===]`, which still contains the anchor as a substring, so the
dossier parser's `find`-based anchor search still matches sanitized text. -/
theorem claim_C9_sanitizer_marker_collision :
    Security.sanitize_user_input "=== SOURCES ===\nx\n=== END SOURCES ==="
      = "[=== SOURCES ===]\nx\n[=== END SOURCES ===]" ∧
    Dossier.sourcesAnchorsMatch
      (Security.sanitize_user_input "=== SOURCES ===\nx\n=== END SOURCES ===") = true ∧
    containsSub (Security.sanitize_user_input "=== SOURCES ===") "=== SOURCES ===" = true := by
  decide

/-- C1 (code bug): the rewrite matches only the exact token (`[1] → [12]`
leaves `[10]`, `[11]`, `[13]` alone), but the sequential per-index `re.sub`
passes disturb already-rewritten citations: with prior registry `{1: U2}`
and fetched URLs `[U1, U2]` (globals 2 and 1), `"see [1] and [2]"` should
become `"see [2] and [1]"`, yet the code produces `"see [1] and [1]"`
because the second pass rewrites the `[2]` written by the first. -/
theorem claim_C1_renumber_sequential_aliasing :
    Research.subCite "[1] [10] [11] [12] [13]" 1 12 = "[12] [10] [11] [12] [13]" ∧
    (Research.renumberStep { source_registry := [(1, "U2")], source_counter := 2 }
        ["U1", "U2"] "see [1] and [2]" "").1.source_registry = [(1, "U2"), (2, "U1")] ∧
    (Research.renumberStep { source_registry := [(1, "U2")], source_counter := 2 }
        ["U1", "U2"] "see [1] and [2]" "").2.1 = "see [1] and [1]" ∧
    ¬ (Research.renumberStep { source_registry := [(1, "U2")], source_counter := 2 }
        ["U1", "U2"] "see [1] and [2]" "").2.1 = "see [2] and [1]" := by decide

/-- C4 (code bug): of the six skip paths, only a failed think call and empty
search queries emit `point_complete` with `skipped = true`; the no-picked-
URLs, no-scraped-content and failed-dossier paths advance with a bare
`continue` and the event stream of the run contains no `point_complete` for
the point at all. -/
theorem claim_C4_skip_paths_missing_events :
    (Research.deep_research {} ["P"] [Ex.envNoUrls]).1
      = [.status, .status, .status, .status, .done 0 0] ∧
    (Research.deep_research {} ["P"] [Ex.envNoScrape]).1
      = [.status, .status, .status, .status, .sources ["http://a.example/"], .status,
         .done 0 0] ∧
    (Research.deep_research {} ["P"] [Ex.envNoDossier]).1
      = [.status, .status, .status, .status, .sources ["http://a.example/"], .status,
         .status, .done 0 0] ∧
    (Research.deep_research {} ["P"] [Ex.envThinkFail]).1
      = [.status, .status, .point_complete 1 1 true, .done 0 0] := by decide

/-- C2 counterexample: `get_overview` on a failing LLM call returns an error
yet has already committed `original_query` and `current_step = 1`, so the
serialized state after the failed stage differs from the state before. -/
theorem claim_C2_counterexample :
    (Research.get_overview {} "Q" { llmResp := none, parsedTitle := "", parsedQueries := [] }).2
      = false ∧
    ¬ ContextState.to_dict
        (Research.get_overview {} "Q"
          { llmResp := none, parsedTitle := "", parsedQueries := [] }).1
      = ContextState.to_dict ({} : ContextState) := by decide

/-- C2 (amended): a failed pipeline stage commits nothing beyond its eager
`current_step` write (and, for overview, the `original_query` write): on an
error return, `get_overview` leaves the state at exactly
`{ctx with original_query, current_step := 1}`, `search_and_pick` at
`{ctx with current_step := 2}`, `clarify` at `{ctx with current_step := 3}`;
`create_plan` never returns an error. -/
theorem claim_C2_failed_stage_preserves_rest :
    ∀ (ctx : ContextState) (q : String) (e : Research.OverviewEnv)
      (qs : List String) (pe : Research.PickEnv) (urls : List String)
      (f : String → Option String) (answers : List String)
      (questions : Option (List String)) (planResp : Option String)
      (parsedPoints : List String),
      ((Research.get_overview ctx q e).2 = false →
        (Research.get_overview ctx q e).1
          = { ctx with original_query := q, current_step := 1 }) ∧
      ((Research.search_and_pick ctx qs pe).2 = false →
        (Research.search_and_pick ctx qs pe).1 = { ctx with current_step := 2 }) ∧
      ((Research.clarify ctx urls f).2 = false →
        (Research.clarify ctx urls f).1 = { ctx with current_step := 3 }) ∧
      (Research.create_plan ctx answers questions planResp parsedPoints).2 = true := by
  intro ctx q e qs pe urls f answers questions planResp parsedPoints
  refine ⟨?_, ?_, ?_, ?_⟩
  · intro h
    by_cases hc : Research.truthyS e.llmResp
    · simp [Research.get_overview, hc] at h
    · simp [Research.get_overview, hc]
  · intro h
    by_cases hc : Research.execute_searches qs pe.searchHits = []
    · simp [Research.search_and_pick, hc]
    · simp [Research.search_and_pick, hc] at h
  · intro h
    by_cases hc : Research.batchScrape (urls.take (min urls.length 15)) f = []
    · simp [Research.clarify, hc]
    · simp [Research.clarify, hc] at h
  · rfl

/-- Witness for C2: a failing overview call on a fresh state leaves exactly
the query and step writes behind. -/
theorem claim_C2_failed_stage_preserves_rest_witness :
    (Research.get_overview {} "Q"
        { llmResp := none, parsedTitle := "", parsedQueries := [] }).1
      = { ({} : ContextState) with original_query := "Q", current_step := 1 } :=
  (claim_C2_failed_stage_preserves_rest {} "Q" ⟨none, "", []⟩ []
    ⟨fun _ => [], none, [], []⟩ [] (fun _ => none) [] none none []).1 (by decide)

/-- Registry lookup on the empty registry. -/
theorem findNum_nil (u : String) : ContextState.findNum [] u = none := rfl

/-- Registry lookup when the head matches. -/
theorem findNum_cons_pos (p : Nat × String) (rest : List (Nat × String)) (u : String)
    (h : p.2 = u) : ContextState.findNum (p :: rest) u = some p.1 := by
  unfold ContextState.findNum
  rw [List.find?_cons_of_pos _ (by simp [h])]
  rfl

/-- Registry lookup when the head does not match. -/
theorem findNum_cons_neg (p : Nat × String) (rest : List (Nat × String)) (u : String)
    (h : ¬ p.2 = u) :
    ContextState.findNum (p :: rest) u = ContextState.findNum rest u := by
  unfold ContextState.findNum
  rw [List.find?_cons_of_neg _ (by simp [h])]

/-- A successful lookup is unchanged by appending entries. -/
theorem findNum_append_of_some (reg t : List (Nat × String)) (u : String) (n : Nat)
    (h : ContextState.findNum reg u = some n) :
    ContextState.findNum (reg ++ t) u = some n := by
  induction reg with
  | nil => rw [findNum_nil] at h; exact absurd h (by simp)
  | cons p rest ih =>
    by_cases hp : p.2 = u
    · rw [findNum_cons_pos p rest u hp] at h
      rw [List.cons_append, findNum_cons_pos p (rest ++ t) u hp]
      exact h
    · rw [findNum_cons_neg p rest u hp] at h
      rw [List.cons_append, findNum_cons_neg p (rest ++ t) u hp]
      exact ih h

/-- A lookup fails exactly when no entry holds the URL. -/
theorem findNum_eq_none (reg : List (Nat × String)) (u : String) :
    ContextState.findNum reg u = none ↔ ∀ p ∈ reg, ¬ p.2 = u := by
  unfold ContextState.findNum
  simp [List.find?_eq_none]

/-- Appending a fresh entry for an absent URL makes its lookup find it. -/
theorem findNum_append_self (reg : List (Nat × String)) (u : String) (k : Nat)
    (h : ContextState.findNum reg u = none) :
    ContextState.findNum (reg ++ [(k, u)]) u = some k := by
  induction reg with
  | nil => rw [List.nil_append, findNum_cons_pos _ _ _ rfl]
  | cons p rest ih =>
    by_cases hp : p.2 = u
    · rw [findNum_cons_pos p rest u hp] at h; exact absurd h (by simp)
    · rw [findNum_cons_neg p rest u hp] at h
      rw [List.cons_append, findNum_cons_neg p _ u hp]
      exact ih h

/-- A successful lookup exhibits the found entry. -/
theorem findNum_mem (reg : List (Nat × String)) (u : String) (n : Nat)
    (h : ContextState.findNum reg u = some n) : (n, u) ∈ reg := by
  unfold ContextState.findNum at h
  rw [Option.map_eq_some'] at h
  obtain ⟨p, hfind, hfst⟩ := h
  have hmem := List.mem_of_find?_eq_some hfind
  have hpred := List.find?_some hfind
  obtain ⟨pn, pu⟩ := p
  simp at hpred hfst
  subst hpred hfst
  exact hmem

/-- A dict write with a key absent from the dict appends. -/
theorem dictSet_fresh (d : List (Nat × String)) (k : Nat) (v : String)
    (h : ∀ p ∈ d, ¬ p.1 = k) :
    ContextState.dictSet d k v = d ++ [(k, v)] := by
  unfold ContextState.dictSet
  rw [if_neg]
  simp only [List.any_eq_true, not_exists]
  intro p
  simp only [decide_eq_true_eq, not_and]
  exact h p

/-- The written pair is always present after a dict write. -/
theorem dictSet_mem_self (d : List (Nat × String)) (k : Nat) (v : String) :
    (k, v) ∈ ContextState.dictSet d k v := by
  unfold ContextState.dictSet
  split
  · next hany =>
    rw [List.any_eq_true] at hany
    obtain ⟨p, hp, hpk⟩ := hany
    simp only [decide_eq_true_eq] at hpk
    refine List.mem_map.mpr ⟨p, hp, ?_⟩
    rw [if_pos hpk]
  · exact List.mem_append.mpr (Or.inr (List.mem_singleton.mpr rfl))

/-- Entries under other keys survive a dict write. -/
theorem dictSet_mem_other (d : List (Nat × String)) (k : Nat) (v : String)
    (n : Nat) (u : String) (hmem : (n, u) ∈ d) (hne : ¬ n = k) :
    (n, u) ∈ ContextState.dictSet d k v := by
  unfold ContextState.dictSet
  split
  · refine List.mem_map.mpr ⟨(n, u), hmem, ?_⟩
    rw [if_neg hne]
  · exact List.mem_append.mpr (Or.inl hmem)

/-- In a registry with unique keys, two entries sharing a key are equal. -/
theorem registry_key_unique (reg : List (Nat × String))
    (hnd : (reg.map Prod.fst).Nodup) (p q : Nat × String)
    (hp : p ∈ reg) (hq : q ∈ reg) (hk : p.1 = q.1) : p = q :=
  List.inj_on_of_nodup_map hnd hp hq hk

/-- Unfolding equation for `buildMap` on a leading URL. -/
theorem buildMap_cons (u : String) (urls : List String)
    (reg acc : List (Nat × String)) :
    ContextState.buildMap (u :: urls) reg acc
      = ContextState.buildMap urls reg
          (match ContextState.findNum reg u with
           | some n => ContextState.dictSet acc n u
           | none => acc) := by
  unfold ContextState.buildMap
  rw [List.foldl_cons]

/-- A mapping entry matching the registry's lookup survives the rest of a
`buildMap` pass (with unique registry keys). -/
theorem buildMap_mem_persist :
    ∀ (urls : List String) (reg acc : List (Nat × String)) (n : Nat) (u : String),
      (reg.map Prod.fst).Nodup →
      ContextState.findNum reg u = some n →
      (n, u) ∈ acc →
      (n, u) ∈ ContextState.buildMap urls reg acc := by
  intro urls
  induction urls with
  | nil => intro reg acc n u _ _ hacc; exact hacc
  | cons u' urls ih =>
    intro reg acc n u hnd hfind hacc
    rw [buildMap_cons]
    cases hf' : ContextState.findNum reg u' with
    | none => exact ih reg acc n u hnd hfind hacc
    | some m =>
      by_cases hmn : m = n
      · subst hmn
        have h1 : (m, u') ∈ reg := findNum_mem reg u' m hf'
        have h2 : (m, u) ∈ reg := findNum_mem reg u m hfind
        have := registry_key_unique reg hnd (m, u') (m, u) h1 h2 rfl
        have hu : u' = u := by injection this
        rw [hu]
        exact ih reg _ m u hnd hfind (dictSet_mem_self acc m u)
      · exact ih reg _ n u hnd hfind (dictSet_mem_other acc m u' n u hacc (Ne.symm hmn))

/-- Every URL of the pass appears in the produced mapping under its
registry number (with unique registry keys). -/
theorem buildMap_mem :
    ∀ (urls : List String) (reg acc : List (Nat × String)) (n : Nat) (u : String),
      (reg.map Prod.fst).Nodup →
      u ∈ urls →
      ContextState.findNum reg u = some n →
      (n, u) ∈ ContextState.buildMap urls reg acc := by
  intro urls
  induction urls with
  | nil => intro _ _ _ _ _ h _; simp at h
  | cons u' urls ih =>
    intro reg acc n u hnd hu hfind
    rw [buildMap_cons]
    rcases List.mem_cons.mp hu with rfl | hu'
    · rw [hfind]
      exact buildMap_mem_persist urls reg _ n u hnd hfind (dictSet_mem_self acc n u)
    · exact ih reg _ n u hnd hu' hfind

/-- Full specification of the `add_sources` fold from a well-formed registry
(positive keys below the counter): the registry only grows, the invariant is
preserved, lookups are stable, every processed URL becomes present under a
positive number, the produced mapping is `buildMap` against the final
registry, and uniqueness of values and keys is preserved. -/
theorem addOne_fold_spec :
    ∀ (urls : List String) (reg : List (Nat × String)) (c : Nat)
      (acc : List (Nat × String))
      (res : List (Nat × String) × Nat × List (Nat × String)),
      res = urls.foldl ContextState.addOneSource (reg, c, acc) →
      0 < c →
      (∀ p ∈ reg, 0 < p.1 ∧ p.1 < c) →
      (∃ t, res.1 = reg ++ t) ∧
      c ≤ res.2.1 ∧
      (∀ p ∈ res.1, 0 < p.1 ∧ p.1 < res.2.1) ∧
      (∀ u n, ContextState.findNum reg u = some n →
        ContextState.findNum res.1 u = some n) ∧
      (∀ u ∈ urls, ∃ n, 0 < n ∧ ContextState.findNum res.1 u = some n) ∧
      res.2.2 = ContextState.buildMap urls res.1 acc ∧
      ((reg.map Prod.snd).Nodup → (res.1.map Prod.snd).Nodup) ∧
      ((reg.map Prod.fst).Nodup → (res.1.map Prod.fst).Nodup) := by
  intro urls
  induction urls with
  | nil =>
    intro reg c acc res hres hc hInv
    subst hres
    refine ⟨⟨[], by simp⟩, le_rfl, hInv, fun u n h => h, by simp, rfl, id, id⟩
  | cons u urls ih =>
    intro reg c acc res hres hc hInv
    cases hfind : ContextState.findNum reg u with
    | some n =>
      have hmem := findNum_mem reg u n hfind
      have hnpos : 0 < n := (hInv _ hmem).1
      have hstep : ContextState.addOneSource (reg, c, acc) u
          = (reg, c, ContextState.dictSet acc n u) := by
        unfold ContextState.addOneSource
        rw [hfind]
        dsimp only
        rw [if_pos (show n ≠ 0 by omega)]
      rw [List.foldl_cons, hstep] at hres
      obtain ⟨hext, hle, hInv', hstab, hpres, hmap, hvals, hkeys⟩ :=
        ih reg c (ContextState.dictSet acc n u) res hres hc hInv
      have hfr : ContextState.findNum res.1 u = some n := hstab u n hfind
      refine ⟨hext, hle, hInv', hstab, ?_, ?_, hvals, hkeys⟩
      · intro u' hu'
        rcases List.mem_cons.mp hu' with rfl | hu''
        · exact ⟨n, hnpos, hfr⟩
        · exact hpres u' hu''
      · rw [buildMap_cons, hfr]
        exact hmap
    | none =>
      have hfreshkey : ∀ p ∈ reg, ¬ p.1 = c := fun p hp => by
        have := (hInv p hp).2; omega
      have hstep : ContextState.addOneSource (reg, c, acc) u
          = (reg ++ [(c, u)], c + 1, ContextState.dictSet acc c u) := by
        unfold ContextState.addOneSource
        rw [hfind]
        dsimp only
        rw [dictSet_fresh reg c u hfreshkey]
      rw [List.foldl_cons, hstep] at hres
      have hInv' : ∀ p ∈ reg ++ [(c, u)], 0 < p.1 ∧ p.1 < c + 1 := by
        intro p hp
        rcases List.mem_append.mp hp with h | h
        · have := hInv p h; omega
        · rw [List.mem_singleton] at h; subst h; simp; omega
      obtain ⟨⟨t, ht⟩, hle, hInvF, hstab, hpres, hmap, hvals, hkeys⟩ :=
        ih (reg ++ [(c, u)]) (c + 1) (ContextState.dictSet acc c u) res hres
          (by omega) hInv'
      have hfu : ContextState.findNum res.1 u = some c :=
        hstab u c (findNum_append_self reg u c hfind)
      refine ⟨⟨(c, u) :: t, by rw [ht, List.append_assoc]; rfl⟩, by omega, hInvF,
        ?_, ?_, ?_, ?_, ?_⟩
      · intro u' n' h
        exact hstab u' n' (findNum_append_of_some reg [(c, u)] u' n' h)
      · intro u' hu'
        rcases List.mem_cons.mp hu' with rfl | hu''
        · exact ⟨c, hc, hfu⟩
        · exact hpres u' hu''
      · rw [buildMap_cons, hfu]
        exact hmap
      · intro hv
        refine hvals ?_
        rw [List.map_append]
        rw [List.nodup_append]
        refine ⟨hv, by simp, ?_⟩
        intro v hvmem hvmem'
        simp at hvmem'
        rw [List.mem_map] at hvmem
        obtain ⟨p, hp, hpu⟩ := hvmem
        exact ((findNum_eq_none reg u).mp hfind p hp) (hpu.trans hvmem')
      · intro hk
        refine hkeys ?_
        rw [List.map_append]
        rw [List.nodup_append]
        refine ⟨hk, by simp, ?_⟩
        intro v hvmem hvmem'
        simp at hvmem'
        rw [List.mem_map] at hvmem
        obtain ⟨p, hp, hpu⟩ := hvmem
        exact hfreshkey p hp (hpu.trans hvmem')

/-- On a registry already containing every URL of the pass under a positive
number, the `add_sources` fold changes nothing and returns the `buildMap`
mapping. -/
theorem addOne_fold_noop :
    ∀ (urls : List String) (reg : List (Nat × String)) (c : Nat)
      (acc : List (Nat × String)),
      (∀ u ∈ urls, ∃ n, 0 < n ∧ ContextState.findNum reg u = some n) →
      urls.foldl ContextState.addOneSource (reg, c, acc)
        = (reg, c, ContextState.buildMap urls reg acc) := by
  intro urls
  induction urls with
  | nil => intro reg c acc _; rfl
  | cons u urls ih =>
    intro reg c acc h
    obtain ⟨n, hn, hfind⟩ := h u (List.mem_cons_self u urls)
    have hstep : ContextState.addOneSource (reg, c, acc) u
        = (reg, c, ContextState.dictSet acc n u) := by
      unfold ContextState.addOneSource
      rw [hfind]
      dsimp only
      rw [if_pos (show n ≠ 0 by omega)]
    rw [List.foldl_cons, hstep,
      ih reg c _ (fun u' hu' => h u' (List.mem_cons_of_mem u hu')),
      buildMap_cons, hfind]

/-- When the `add_sources` fold fixes the registry and counter,
`add_sources` returns the fold's mapping and leaves the state unchanged. -/
theorem add_sources_of_foldl (s : ContextState) (urls : List String)
    (m : List (Nat × String))
    (h : urls.foldl ContextState.addOneSource (s.source_registry, s.source_counter, [])
        = (s.source_registry, s.source_counter, m)) :
    ContextState.add_sources s urls = (m, s) := by
  unfold ContextState.add_sources
  rw [h]

/-- C3 (amended): from any state satisfying the documented registry
invariant (counter positive, keys positive and below the counter, keys
unique), registering a URL list twice returns the identical mapping both
times with the second call leaving the state — counter included — unchanged;
a URL already registered is returned under its existing number; and
uniqueness of the registry's URLs is preserved. -/
theorem claim_C3_register_idempotent :
    ∀ (ctx : ContextState) (urls : List String),
      0 < ctx.source_counter →
      (∀ p ∈ ctx.source_registry, 0 < p.1 ∧ p.1 < ctx.source_counter) →
      (ctx.source_registry.map Prod.fst).Nodup →
      (ContextState.add_sources (ContextState.add_sources ctx urls).2 urls).1
          = (ContextState.add_sources ctx urls).1 ∧
      (ContextState.add_sources (ContextState.add_sources ctx urls).2 urls).2
          = (ContextState.add_sources ctx urls).2 ∧
      (∀ u n, u ∈ urls → ContextState.findNum ctx.source_registry u = some n →
          (n, u) ∈ (ContextState.add_sources ctx urls).1) ∧
      ((ctx.source_registry.map Prod.snd).Nodup →
          ((ContextState.add_sources ctx urls).2.source_registry.map Prod.snd).Nodup) := by
  intro ctx urls hc hInv hkeys
  obtain ⟨⟨t, ht⟩, hle, hInv', hstab, hpres, hmap, hvals, hkeys'⟩ :=
    addOne_fold_spec urls ctx.source_registry ctx.source_counter []
      (urls.foldl ContextState.addOneSource
        (ctx.source_registry, ctx.source_counter, [])) rfl hc hInv
  have hsecond :=
    add_sources_of_foldl (ContextState.add_sources ctx urls).2 urls
      (ContextState.buildMap urls
        (urls.foldl ContextState.addOneSource
          (ctx.source_registry, ctx.source_counter, [])).1 [])
      (addOne_fold_noop urls
        (urls.foldl ContextState.addOneSource
          (ctx.source_registry, ctx.source_counter, [])).1
        (urls.foldl ContextState.addOneSource
          (ctx.source_registry, ctx.source_counter, [])).2.1 [] hpres)
  refine ⟨?_, ?_, ?_, ?_⟩
  · rw [hsecond]
    exact hmap.symm
  · rw [hsecond]
  · intro u n hu hfind
    show (n, u) ∈ (urls.foldl ContextState.addOneSource
      (ctx.source_registry, ctx.source_counter, [])).2.2
    rw [hmap]
    exact buildMap_mem urls _ [] n u (hkeys' hkeys) hu (hstab u n hfind)
  · exact hvals

/-- Witness for C3: re-registering `["A", "B"]` on the registry `{1: "A"}`
with counter 2 returns the same mapping on the repeat call. -/
theorem claim_C3_register_idempotent_witness :
    (ContextState.add_sources
      (ContextState.add_sources
        { source_registry := [(1, "A")], source_counter := 2 } ["A", "B"]).2
      ["A", "B"]).1
    = (ContextState.add_sources
        { source_registry := [(1, "A")], source_counter := 2 } ["A", "B"]).1 :=
  (claim_C3_register_idempotent
    { source_registry := [(1, "A")], source_counter := 2 } ["A", "B"]
    (by decide) (by decide) (by decide)).1

/-- C3 counterexample: on a state whose registry holds the falsy key `0`,
re-registering the same URL twice returns two different mappings, advances
`source_counter` on both calls, and leaves the URL three times in the
registry. -/
theorem claim_C3_counterexample :
    (ContextState.add_sources { source_registry := [(0, "u")], source_counter := 1 }
      ["u"]).1 = [(1, "u")] ∧
    (ContextState.add_sources
      (ContextState.add_sources { source_registry := [(0, "u")], source_counter := 1 }
        ["u"]).2 ["u"]).1 = [(2, "u")] ∧
    (ContextState.add_sources
      (ContextState.add_sources { source_registry := [(0, "u")], source_counter := 1 }
        ["u"]).2 ["u"]).2.source_counter = 3 ∧
    ((ContextState.add_sources
      (ContextState.add_sources { source_registry := [(0, "u")], source_counter := 1 }
        ["u"]).2 ["u"]).2.source_registry.filter (fun p => p.2 = "u")).length = 3 := by decide

/-- C8 counterexample: with two system messages, the anthropic body lifts the
last one (not the first) and drops both from `messages`, contradicting the
claimed first-lift-rest-unchanged translation. -/
theorem claim_C8_counterexample :
    Llm._build_request_body [⟨"system", "A"⟩, ⟨"user", "u"⟩, ⟨"system", "B"⟩] "m" 5
        "anthropic"
      = { model := "m", messages := [⟨"user", "u"⟩], max_tokens := 5,
          temperature := none, system := some "B" } ∧
    ¬ Llm._build_request_body [⟨"system", "A"⟩, ⟨"user", "u"⟩, ⟨"system", "B"⟩] "m" 5
        "anthropic"
      = { model := "m", messages := [⟨"user", "u"⟩, ⟨"system", "B"⟩], max_tokens := 5,
          temperature := none, system := some "A" } := by decide

/-- Digit characters decode to their digit value. -/
theorem digitVal_digitChar (d : Nat) (h : d < 10) : digitVal (digitChar d) = d := by
  interval_cases d <;> rfl

/-- Digit characters are digits. -/
theorem isDigit_digitChar (d : Nat) (h : d < 10) : (digitChar d).isDigit = true := by
  interval_cases d <;> rfl

/-- Appending a digit multiplies the decoded value by ten and adds it. -/
theorem charsToNat_append (cs : List Char) (c : Char) :
    charsToNat (cs ++ [c]) = charsToNat cs * 10 + digitVal c := by
  unfold charsToNat
  rw [List.foldl_append]
  rfl

/-- The fuelled digit expansion decodes back to its input. -/
theorem natToStrAux_val (fuel : Nat) :
    ∀ n, n ≤ fuel → charsToNat (natToStrAux fuel n) = n := by
  induction fuel with
  | zero =>
    intro n hn
    interval_cases n
    rfl
  | succ fuel ih =>
    intro n hn
    unfold natToStrAux
    by_cases h0 : n = 0
    · subst h0; simp [charsToNat]
    · have hdiv : n / 10 < n := Nat.div_lt_self (Nat.pos_of_ne_zero h0) (by norm_num)
      rw [if_neg h0, charsToNat_append, ih (n / 10) (by omega),
        digitVal_digitChar (n % 10) (Nat.mod_lt _ (by norm_num))]
      have := Nat.div_add_mod n 10
      omega

/-- Every character of the fuelled digit expansion is a digit. -/
theorem natToStrAux_digits (fuel : Nat) :
    ∀ n, ∀ c ∈ natToStrAux fuel n, c.isDigit = true := by
  induction fuel with
  | zero => intro n c hc; simp [natToStrAux] at hc
  | succ fuel ih =>
    intro n c hc
    unfold natToStrAux at hc
    by_cases h0 : n = 0
    · simp [h0] at hc
    · rw [if_neg h0] at hc
      rcases List.mem_append.mp hc with h | h
      · exact ih _ c h
      · rw [List.mem_singleton] at h
        subst h
        exact isDigit_digitChar _ (Nat.mod_lt _ (by norm_num))

/-- A nonzero number's digit expansion is nonempty. -/
theorem natToStrAux_ne_nil (n : Nat) (h : n ≠ 0) : natToStrAux n n ≠ [] := by
  obtain ⟨m, rfl⟩ := Nat.exists_eq_succ_of_ne_zero h
  unfold natToStrAux
  rw [if_neg h]
  simp

/-- Parsing a rendered natural number returns it (`int(str(n)) = n`). -/
theorem strToNat?_natToStr (n : Nat) : strToNat? (natToStr n) = some n := by
  by_cases h0 : n = 0
  · subst h0; rfl
  · unfold natToStr strToNat?
    rw [if_neg h0]
    have hcond : (String.mk (natToStrAux n n)).data ≠ [] ∧
        ((String.mk (natToStrAux n n)).data.all Char.isDigit) = true := by
      refine ⟨natToStrAux_ne_nil n h0, ?_⟩
      rw [List.all_eq_true]
      intro c hc
      exact natToStrAux_digits n n c hc
    rw [if_pos hcond, natToStrAux_val n n le_rfl]

/-- Restoring serialized registry keys recovers the original registry. -/
theorem parseRegistry_map (reg : List (Nat × String)) :
    ContextState.parseRegistry (reg.map (fun p => (natToStr p.1, p.2))) = some reg := by
  induction reg with
  | nil => rfl
  | cons p rest ih =>
    simp [ContextState.parseRegistry, strToNat?_natToStr, ih]

/-- A registry dict whose keys are canonical numerals parses, and serializing
the parse reproduces it. -/
theorem parseRegistry_wellformed :
    ∀ (l : List (String × String)),
      (∀ p ∈ l, ∃ n : Nat, p.1 = natToStr n) →
      ∃ reg, ContextState.parseRegistry l = some reg ∧
        reg.map (fun p => (natToStr p.1, p.2)) = l := by
  intro l
  induction l with
  | nil => intro _; exact ⟨[], rfl, rfl⟩
  | cons p rest ih =>
    intro h
    obtain ⟨n, hn⟩ := h p (List.mem_cons_self p rest)
    obtain ⟨reg, hreg, hmap⟩ := ih (fun q hq => h q (List.mem_cons_of_mem p hq))
    refine ⟨(n, p.2) :: reg, ?_, ?_⟩
    · simp [ContextState.parseRegistry, hn, strToNat?_natToStr, hreg]
    · simp only [List.map_cons, hmap, ← hn]

/-- C7: serialization round-trips losslessly — `from_dict ∘ to_dict` is the
identity on states, `to_dict ∘ from_dict` is the identity on well-formed
state dicts (all fields present, registry keys canonical decimal numerals);
integer registry keys serialize as strings and are restored as integers. -/
theorem claim_C7_serialization_roundtrip :
    (∀ s : ContextState, ContextState.from_dict (ContextState.to_dict s) = some s) ∧
    (∀ d : ContextState.StateDict,
      (∀ p ∈ d.source_registry, ∃ n : Nat, p.1 = natToStr n) →
      (ContextState.from_dict d).map ContextState.to_dict = some d) := by
  constructor
  · intro s
    unfold ContextState.from_dict ContextState.to_dict
    rw [parseRegistry_map]
    rfl
  · intro d h
    obtain ⟨reg, hreg, hmap⟩ := parseRegistry_wellformed d.source_registry h
    unfold ContextState.from_dict
    rw [hreg]
    show some (ContextState.to_dict _) = some d
    rw [Option.some_inj]
    unfold ContextState.to_dict
    rw [hmap]

/-- Witness for C7: a concrete well-formed dict with registry key `"7"`
round-trips unchanged. -/
theorem claim_C7_serialization_roundtrip_witness :
    (ContextState.from_dict
      { session_id := "s", session_title := "t", original_query := "q", current_step := 2,
        queries := ["a"], urls := ["http://a.example/"], search_results := [],
        clarification_questions := [], clarification_answers := [], plan_points := [],
        plan_version := 1, dossiers := [], key_learnings := [],
        source_registry := [("7", "http://a.example/")], source_counter := 8,
        language := "en", academic_mode := false }).map ContextState.to_dict
    = some
      { session_id := "s", session_title := "t", original_query := "q", current_step := 2,
        queries := ["a"], urls := ["http://a.example/"], search_results := [],
        clarification_questions := [], clarification_answers := [], plan_points := [],
        plan_version := 1, dossiers := [], key_learnings := [],
        source_registry := [("7", "http://a.example/")], source_counter := 8,
        language := "en", academic_mode := false } :=
  claim_C7_serialization_roundtrip.2 _
    (by
      intro p hp
      rw [List.mem_singleton] at hp
      subst hp
      exact ⟨7, by decide⟩)

/-- Generalized characterization of the anthropic message scan: the fold
keeps the last system-role content (falling back to the seed) and appends the
non-system messages in order. -/
theorem anthropicScan_go (msgs : List Llm.Msg) :
    ∀ (s : Option String) (a : List Llm.Msg),
      msgs.foldl
        (fun acc m =>
          if m.role = "system" then (some m.content, acc.2) else (acc.1, acc.2 ++ [m]))
        (s, a)
      = ((Llm.lastSystemContent msgs).or s,
         a ++ msgs.filter (fun m => ¬ m.role = "system")) := by
  induction msgs with
  | nil => intro s a; simp [Llm.lastSystemContent]
  | cons m rest ih =>
    intro s a
    by_cases hm : m.role = "system"
    · rw [List.foldl_cons, if_pos hm, ih]
      rcases hrest : Llm.lastSystemContent rest with _ | c <;>
        simp [Llm.lastSystemContent, hm, hrest, List.filter_cons]
    · rw [List.foldl_cons, if_neg hm, ih]
      rcases hrest : Llm.lastSystemContent rest with _ | c <;>
        simp [Llm.lastSystemContent, hm, hrest, List.filter_cons]

/-- The anthropic scan equals its declarative description. -/
theorem anthropicScan_spec (msgs : List Llm.Msg) :
    Llm.anthropicScan msgs
      = (Llm.lastSystemContent msgs,
         msgs.filter (fun m => ¬ m.role = "system")) := by
  unfold Llm.anthropicScan
  rw [anthropicScan_go]
  simp

/-- C8 (amended): for anthropic the body drops every system-role message and
lifts the content of the last one to the top-level `system` field (omitted
when empty), with no temperature; every other provider gets the full message
list unchanged with `temperature = 0.3`. -/
theorem claim_C8_request_translation :
    ∀ (msgs : List Llm.Msg) (model : String) (mt : Nat),
      Llm._build_request_body msgs model mt "anthropic"
        = { model := model,
            messages := msgs.filter (fun m => ¬ m.role = "system"),
            max_tokens := mt,
            temperature := none,
            system := match Llm.lastSystemContent msgs with
                      | some c => if c ≠ "" then some c else none
                      | none => none } ∧
      ∀ (provider : String), ¬ provider = "anthropic" →
        Llm._build_request_body msgs model mt provider
          = { model := model, messages := msgs, max_tokens := mt,
              temperature := some (3 / 10), system := none } := by
  intro msgs model mt
  constructor
  · unfold Llm._build_request_body
    rw [if_pos rfl, anthropicScan_spec]
  · intro provider hp
    unfold Llm._build_request_body
    rw [if_neg hp]

/-- Witness for C8: a non-anthropic provider receives the OpenAI-shaped body
with temperature 0.3. -/
theorem claim_C8_request_translation_witness :
    Llm._build_request_body [⟨"user", "u"⟩] "m" 5 "openrouter"
      = { model := "m", messages := [⟨"user", "u"⟩], max_tokens := 5,
          temperature := some (3 / 10), system := none } :=
  (claim_C8_request_translation [⟨"user", "u"⟩] "m" 5).2 "openrouter" (by decide)

/-- Registering sources does not touch the dossier list. -/
theorem add_sources_dossiers (ctx : ContextState) (urls : List String) :
    (ContextState.add_sources ctx urls).2.dossiers = ctx.dossiers := rfl

/-- Appending key learnings does not touch the dossier list. -/
theorem update_key_learnings_dossiers (ctx : ContextState) (l : String) :
    (ContextState.update_key_learnings ctx l).dossiers = ctx.dossiers := by
  unfold ContextState.update_key_learnings
  split <;> rfl

/-- Committing a dossier grows the dossier list by exactly one. -/
theorem add_dossier_dossiers_len (ctx : ContextState) (p t : String)
    (srcs : List String) (l : Option String) :
    (ContextState.add_dossier ctx p t srcs l).dossiers.length
      = ctx.dossiers.length + 1 := by
  unfold ContextState.add_dossier
  cases l with
  | none =>
    show ((ContextState.add_sources _ srcs).2.dossiers).length = _
    rw [add_sources_dossiers]
    simp
  | some s =>
    dsimp only
    split
    · rw [update_key_learnings_dossiers, add_sources_dossiers]
      simp
    · rw [add_sources_dossiers]
      simp

/-- The renumbering step does not touch the dossier list. -/
theorem renumberStep_dossiers (ctx : ContextState) (durls : List String)
    (t l : String) :
    (Research.renumberStep ctx durls t l).1.dossiers = ctx.dossiers := rfl

/-- One loop iteration commits exactly one dossier when `pointCommits` holds
and none otherwise, and every `point_complete` event it yields carries the
supplied total. -/
theorem runPoint_spec (ctx : ContextState) (idx total : Nat) (point : String)
    (e : Research.PointEnv) :
    (Research.runPoint ctx idx total point e).2.dossiers.length
      = ctx.dossiers.length + (if Research.pointCommits e then 1 else 0) ∧
    (∀ pn tp sk, Research.REvent.point_complete pn tp sk
        ∈ (Research.runPoint ctx idx total point e).1 → tp = total) := by
  by_cases h1 : Research.truthyS e.thinkResp
  case neg =>
    refine ⟨by simp [Research.runPoint, Research.pointCommits, h1], ?_⟩
    intro pn tp sk h
    simp [Research.runPoint, h1] at h
    exact h.2.1
  by_cases h2 : e.searchQueries = []
  case pos =>
    refine ⟨by simp [Research.runPoint, Research.pointCommits, h1, h2], ?_⟩
    intro pn tp sk h
    simp [Research.runPoint, h1, h2] at h
    exact h.2.1
  by_cases h3 : Research.execute_searches e.searchQueries e.searchHits = []
  case pos =>
    refine ⟨by simp [Research.runPoint, Research.pointCommits, h1, h2, h3], ?_⟩
    intro pn tp sk h
    simp [Research.runPoint, h1, h2, h3] at h
  by_cases h4 : Research.pickUrlsFrom e.pickResp e.pickParsedUrls e.pickFallbackUrls = []
  case pos =>
    refine ⟨by simp [Research.runPoint, Research.pointCommits, h1, h2, h3, h4], ?_⟩
    intro pn tp sk h
    simp [Research.runPoint, h1, h2, h3, h4] at h
  by_cases h5 : Research.batchScrape
      (Research.pickUrlsFrom e.pickResp e.pickParsedUrls e.pickFallbackUrls) e.fetched = []
  case pos =>
    refine ⟨by simp [Research.runPoint, Research.pointCommits, h1, h2, h3, h4, h5], ?_⟩
    intro pn tp sk h
    simp [Research.runPoint, h1, h2, h3, h4, h5] at h
  by_cases h6 : Research.truthyS e.dossierResp
  case neg =>
    refine ⟨by simp [Research.runPoint, Research.pointCommits, h1, h2, h3, h4, h5, h6], ?_⟩
    intro pn tp sk h
    simp [Research.runPoint, h1, h2, h3, h4, h5, h6] at h
  constructor
  · simp only [Research.runPoint, Research.pointCommits, h1, h2, h3, h4, h5, h6,
      if_true, if_false, not_true, not_false_iff, ite_false, ite_true]
    simp [add_dossier_dossiers_len, renumberStep_dossiers, h1, h2, h3, h4, h5, h6]
  · intro pn tp sk h
    simp [Research.runPoint, h1, h2, h3, h4, h5, h6] at h
    exact h.2.1

/-- Over a list of points, the loop's final dossier count is the initial
count plus the number of committing points, and every `point_complete` event
carries the supplied total. -/
theorem runPoints_spec (total : Nat) :
    ∀ (l : List (String × Research.PointEnv)) (ctx : ContextState) (idx : Nat),
      (Research.runPoints total ctx idx l).2.dossiers.length
        = ctx.dossiers.length + l.countP (fun pe => Research.pointCommits pe.2) ∧
      (∀ pn tp sk, Research.REvent.point_complete pn tp sk
          ∈ (Research.runPoints total ctx idx l).1 → tp = total) := by
  intro l
  induction l with
  | nil =>
    intro ctx idx
    refine ⟨by simp [Research.runPoints], ?_⟩
    intro pn tp sk h
    simp [Research.runPoints] at h
  | cons pe rest ih =>
    intro ctx idx
    obtain ⟨hcount, hmem⟩ := runPoint_spec ctx idx total pe.1 pe.2
    obtain ⟨hcount', hmem'⟩ := ih (Research.runPoint ctx idx total pe.1 pe.2).2 (idx + 1)
    constructor
    · show (Research.runPoints total
        (Research.runPoint ctx idx total pe.1 pe.2).2 (idx + 1) rest).2.dossiers.length = _
      rw [hcount', hcount, List.countP_cons]
      by_cases hc : Research.pointCommits pe.2
      · simp [hc]
        omega
      · simp [hc]
    · intro pn tp sk h
      have h' : Research.REvent.point_complete pn tp sk
          ∈ (Research.runPoint ctx idx total pe.1 pe.2).1
            ++ (Research.runPoints total
                (Research.runPoint ctx idx total pe.1 pe.2).2 (idx + 1) rest).1 := h
      rcases List.mem_append.mp h' with hl | hr
      · exact hmem pn tp sk hl
      · exact hmem' pn tp sk hr

/-- The last element of a list ending in an explicit singleton. -/
theorem getLast?_append_singleton (l : List Research.REvent) (x : Research.REvent) :
    (l ++ [x]).getLast? = some x := by
  rw [List.getLast?_concat]

/-- The event stream of `deep_research`, laid out as the initial status, the
loop's events, the optional synthesis event, and the closing done event. -/
theorem deep_research_events (ctx : ContextState) (points : List String)
    (envs : List Research.PointEnv) :
    (Research.deep_research ctx points envs).1
      = ((Research.REvent.status ::
          (Research.runPoints points.length { ctx with current_step := 5 } 1
            (points.zip envs)).1) ++
         (if (Research.runPoints points.length { ctx with current_step := 5 } 1
              (points.zip envs)).2.dossiers ≠ [] then
            [Research.REvent.synthesis_start
              (Research.runPoints points.length { ctx with current_step := 5 } 1
                (points.zip envs)).2.dossiers.length
              (Research.runPoints points.length { ctx with current_step := 5 } 1
                (points.zip envs)).2.source_registry.length]
          else [])) ++
        [Research.REvent.done
          (Research.runPoints points.length { ctx with current_step := 5 } 1
            (points.zip envs)).2.dossiers.length
          (Research.runPoints points.length { ctx with current_step := 5 } 1
            (points.zip envs)).2.source_registry.length] := rfl

/-- The state `deep_research` returns is the state the loop left. -/
theorem deep_research_state (ctx : ContextState) (points : List String)
    (envs : List Research.PointEnv) :
    (Research.deep_research ctx points envs).2
      = (Research.runPoints points.length { ctx with current_step := 5 } 1
          (points.zip envs)).2 := rfl

/-- C10 (amended): every `point_complete` event carries
`total_points = len(plan_points)`; the terminal `done` event's `total_points`
is the number of dossiers held at the end of the run, which for a run
starting with no dossiers equals the number of committing points — strictly
smaller than the per-point total whenever some supplied point fails to
commit. -/
theorem claim_C10_done_event_totals :
    ∀ (ctx : ContextState) (points : List String) (envs : List Research.PointEnv),
      ctx.dossiers = [] →
      (∀ pn tp sk, Research.REvent.point_complete pn tp sk
          ∈ (Research.deep_research ctx points envs).1 → tp = points.length) ∧
      (Research.deep_research ctx points envs).1.getLast?
        = some (Research.REvent.done
            ((points.zip envs).countP (fun pe => Research.pointCommits pe.2))
            (Research.deep_research ctx points envs).2.source_registry.length) ∧
      (envs.length = points.length →
        (∃ pe ∈ points.zip envs, ¬ Research.pointCommits pe.2) →
        (points.zip envs).countP (fun pe => Research.pointCommits pe.2) < points.length) := by
  intro ctx points envs h0
  obtain ⟨hcount, hmem⟩ :=
    runPoints_spec points.length (points.zip envs)
      { ctx with current_step := 5 } 1
  have hdlen : (Research.runPoints points.length { ctx with current_step := 5 } 1
      (points.zip envs)).2.dossiers.length
      = (points.zip envs).countP (fun pe => Research.pointCommits pe.2) := by
    rw [hcount]
    show ctx.dossiers.length + _ = _
    rw [h0]
    simp
  refine ⟨?_, ?_, ?_⟩
  · intro pn tp sk h
    rw [deep_research_events] at h
    rcases List.mem_append.mp h with h' | hx
    · rcases List.mem_append.mp h' with h'' | hx
      · rw [List.mem_cons] at h''
        rcases h'' with hx | h''
        · exact absurd hx (by simp)
        · exact hmem pn tp sk h''
      · split at hx <;> simp at hx
    · simp at hx
  · rw [deep_research_events, getLast?_append_singleton, hdlen, deep_research_state]
  · intro hlen hex
    obtain ⟨pe, hpe, hnc⟩ := hex
    have hle : (points.zip envs).countP (fun pe => Research.pointCommits pe.2)
        ≤ (points.zip envs).length := List.countP_le_length _
    have hziplen : (points.zip envs).length = points.length := by
      rw [List.length_zip, hlen]
      omega
    rw [hziplen] at hle
    rcases Nat.lt_or_ge ((points.zip envs).countP
        (fun pe => Research.pointCommits pe.2)) points.length with hlt | hge
    · exact hlt
    · exfalso
      have heq : (points.zip envs).countP (fun pe => Research.pointCommits pe.2)
          = (points.zip envs).length := by omega
      have := List.countP_eq_length.mp heq pe hpe
      exact hnc (by simpa using this)

/-- Witness for C10: two plan points, the first committing and the second
skipped — the done event reports one committed dossier and one source, and
the commit count falls short of the point count. -/
theorem claim_C10_done_event_totals_witness :
    (Research.deep_research {} ["P", "Q"] [Ex.envBase, Ex.envThinkFail]).1.getLast?
      = some (Research.REvent.done 1 1) ∧
    (["P", "Q"].zip [Ex.envBase, Ex.envThinkFail]).countP
        (fun pe => Research.pointCommits pe.2) < 2 := by
  have h := claim_C10_done_event_totals {} ["P", "Q"]
    [Ex.envBase, Ex.envThinkFail] rfl
  constructor
  · rw [h.2.1]
    decide
  · exact h.2.2 (by decide)
      ⟨("Q", Ex.envThinkFail),
        List.mem_cons_of_mem _ (List.mem_cons_self _ _), by decide⟩

/-- C10 counterexample: a deep-research run on a context that already holds a
dossier commits nothing (empty plan) yet reports `total_points = 1` in its
`done` event, so the done count is not the number of dossiers committed
during the run. -/
theorem claim_C10_counterexample :
    (Research.deep_research { dossiers := [Ex.d0] } [] []).1
      = [.status, .synthesis_start 1 0, .done 1 0] ∧
    (Research.deep_research { dossiers := [Ex.d0] } [] []).2.dossiers.length
      = ({ dossiers := [Ex.d0] } : ContextState).dossiers.length := by decide
